import Mathlib

/-!
Verification of the WebLLM model-analysis script
(`webllm_model_analysis.py`): the per-model data model, the deployment
feasibility scorer and its bucketing, and the aggregate summary
reductions, embedded shallowly.  Python floats are embedded as `ℚ`,
Python `None` as `Option.none`, and the insertion-ordered Python `dict`
as an association list.
-/

/-- One entry of the `webllm_models` dictionary: per-model metadata.
Optional benchmark fields are `Option ℚ`; `none` embeds Python `None`. -/
structure ModelRecord where
  vram_mb : ℚ
  parameters : String
  low_resource_compatible : Bool
  context_window : ℕ
  quantization : String
  sentiment_f1_score : Option ℚ
  instruction_following : Option ℚ
  file_size_gb : ℚ
deriving DecidableEq, Repr

/-- The catalog type: Python dicts preserve insertion order, so the
`webllm_models` dict is an association list from model name to record. -/
abbrev Catalog := List (String × ModelRecord)

/-- Python truthiness of an optional float value: `None` and `0.0` are
falsy, every other float is truthy.  This is the test performed by
`if data["sentiment_f1_score"]` in the source. -/
def pyTruthy : Option ℚ → Bool
  | none => false
  | some x => x != 0

/-- File-size addend of the feasibility score: the first `if` block of
the scorer (`< 4.0` gives 2, else `< 6.0` gives 1, else 0). -/
def sizePoints (fs : ℚ) : ℕ :=
  if fs < 4 then 2 else if fs < 6 then 1 else 0

/-- Low-resource addend of the feasibility score: 2 when the flag is set. -/
def lowResourcePoints (b : Bool) : ℕ :=
  if b then 2 else 0

/-- Sentiment addend of the feasibility score: each branch of the Python
`if`/`elif` chain tests `data["sentiment_f1_score"] and
data["sentiment_f1_score"] > c`, i.e. truthiness of the optional value
conjoined with the threshold comparison. -/
def sentimentPoints (s : Option ℚ) : ℕ :=
  if pyTruthy s ∧ s.getD 0 > 60 then 3
  else if pyTruthy s ∧ s.getD 0 > 50 then 2
  else if pyTruthy s ∧ s.getD 0 > 40 then 1
  else 0

/-- Context-window addend of the feasibility score: 1 when `>= 4096`. -/
def contextPoints (cw : ℕ) : ℕ :=
  if cw ≥ 4096 then 1 else 0

/-- The additive deployment feasibility score computed inside
`create_deployment_feasibility_chart`: the sum of the four `score +=`
blocks. -/
def feasibilityScore (r : ModelRecord) : ℕ :=
  sizePoints r.file_size_gb + lowResourcePoints r.low_resource_compatible +
    sentimentPoints r.sentiment_f1_score + contextPoints r.context_window

/-- Bucketing of a feasibility score into the four category labels of
`create_deployment_feasibility_chart` (descending threshold order). -/
def feasibilityCategory (score : ℕ) : String :=
  if score ≥ 7 then "Excellent for Journaling"
  else if score ≥ 5 then "Good for Journaling"
  else if score ≥ 3 then "Adequate for Journaling"
  else "Not Suitable"

/-- The scoring rule exactly as the specification words it: when the
sentiment score is present the thresholds apply to its value directly,
with no truthiness guard; an absent score contributes nothing. -/
def claimedScore (r : ModelRecord) : ℕ :=
  (if r.file_size_gb < 4 then 2 else if r.file_size_gb < 6 then 1 else 0) +
  (if r.low_resource_compatible then 2 else 0) +
  (match r.sentiment_f1_score with
   | some x => if x > 60 then 3 else if x > 50 then 2 else if x > 40 then 1 else 0
   | none => 0) +
  (if r.context_window ≥ 4096 then 1 else 0)

/-- The truthiness-guarded sentiment addend agrees with the unguarded
threshold chain: the guard only matters at the value 0, where every
threshold already fails. -/
lemma sentimentPoints_eq (s : Option ℚ) :
    sentimentPoints s =
      (match s with
       | some x => if x > 60 then 3 else if x > 50 then 2 else if x > 40 then 1 else 0
       | none => 0) := by
  cases s with
  | none => simp [sentimentPoints, pyTruthy]
  | some x =>
    by_cases hx : x = 0
    · subst hx
      norm_num [sentimentPoints, pyTruthy]
    · simp [sentimentPoints, pyTruthy, hx]

lemma sizePoints_antitone {a b : ℚ} (h : a ≤ b) : sizePoints b ≤ sizePoints a := by
  unfold sizePoints
  split_ifs <;> first | omega | linarith

lemma sentimentPoints_some_mono {x y : ℚ} (h : x ≤ y) :
    sentimentPoints (some x) ≤ sentimentPoints (some y) := by
  rw [sentimentPoints_eq, sentimentPoints_eq]
  dsimp only
  split_ifs <;> first | omega | linarith

/-- C2: the feasibility scorer computes exactly the additive rule stated
in the specification: +2 for `file_size_gb < 4.0` else +1 for `< 6.0`;
+2 for `low_resource_compatible`; for a present `sentiment_f1_score`,
+3 if `> 60`, else +2 if `> 50`, else +1 if `> 40`, else +0, and +0 when
absent; +1 for `context_window ≥ 4096`. -/
theorem feasibilityScore_eq_claimedScore (r : ModelRecord) :
    feasibilityScore r = claimedScore r := by
  unfold feasibilityScore claimedScore sizePoints lowResourcePoints contextPoints
  rw [sentimentPoints_eq]

/-- C5: for every `ModelRecord` the feasibility score lies in the
interval `[0, 8]`. -/
theorem feasibilityScore_in_range (r : ModelRecord) :
    0 ≤ feasibilityScore r ∧ feasibilityScore r ≤ 8 := by
  refine ⟨Nat.zero_le _, ?_⟩
  unfold feasibilityScore sizePoints lowResourcePoints sentimentPoints contextPoints
  split_ifs <;> omega

/-- C3: bucketing is a total function of the score with inclusive lower
boundaries evaluated in descending order: `score ≥ 7` maps to the
"Excellent" bucket, `score ∈ [5, 7)` to "Good", `score ∈ [3, 5)` to
"Adequate", and `score < 3` to "Not Suitable"; in particular scores 7, 5
and 3 land in "Excellent", "Good" and "Adequate" respectively. -/
theorem feasibilityCategory_thresholds (s : ℕ) :
    (7 ≤ s → feasibilityCategory s = "Excellent for Journaling") ∧
    (5 ≤ s → s < 7 → feasibilityCategory s = "Good for Journaling") ∧
    (3 ≤ s → s < 5 → feasibilityCategory s = "Adequate for Journaling") ∧
    (s < 3 → feasibilityCategory s = "Not Suitable") ∧
    feasibilityCategory 7 = "Excellent for Journaling" ∧
    feasibilityCategory 5 = "Good for Journaling" ∧
    feasibilityCategory 3 = "Adequate for Journaling" := by
  unfold feasibilityCategory
  refine ⟨?_, ?_, ?_, ?_, by norm_num, by norm_num, by norm_num⟩ <;>
    intros <;> split_ifs <;> first | rfl | omega

/-- Witness for C3: the threshold theorem applied at the concrete scores
8, 6, 4 and 2. -/
theorem feasibilityCategory_thresholds_witness :
    feasibilityCategory 8 = "Excellent for Journaling" ∧
    feasibilityCategory 6 = "Good for Journaling" ∧
    feasibilityCategory 4 = "Adequate for Journaling" ∧
    feasibilityCategory 2 = "Not Suitable" :=
  ⟨(feasibilityCategory_thresholds 8).1 (by norm_num),
   (feasibilityCategory_thresholds 6).2.1 (by norm_num) (by norm_num),
   (feasibilityCategory_thresholds 4).2.2.1 (by norm_num) (by norm_num),
   (feasibilityCategory_thresholds 2).2.2.2.1 (by norm_num)⟩

/-- C4: the feasibility scorer is monotonic in each of the three cited
fields: decreasing `file_size_gb`, switching `low_resource_compatible`
from `false` to `true`, or increasing a present `sentiment_f1_score`,
holding everything else fixed, never decreases the score. -/
theorem feasibilityScore_monotone (r : ModelRecord) (g x y : ℚ) :
    (g ≤ r.file_size_gb →
      feasibilityScore r ≤ feasibilityScore { r with file_size_gb := g }) ∧
    (r.low_resource_compatible = false →
      feasibilityScore r ≤ feasibilityScore { r with low_resource_compatible := true }) ∧
    (r.sentiment_f1_score = some x → x ≤ y →
      feasibilityScore r ≤ feasibilityScore { r with sentiment_f1_score := some y }) := by
  refine ⟨fun hg => ?_, fun hb => ?_, fun hs hxy => ?_⟩
  · unfold feasibilityScore
    simp only
    have := sizePoints_antitone hg
    omega
  · unfold feasibilityScore
    simp only [hb]
    unfold lowResourcePoints
    simp only [if_true, if_false, Bool.false_eq_true]
    omega
  · unfold feasibilityScore
    simp only [hs]
    have := sentimentPoints_some_mono hxy
    omega

/-- Witness for C4: monotonicity instantiated on the embedded
`gemma-2-2b-it-q4f32_1` record (file size 2.51, low-resource `false`,
sentiment score 62.62), shrinking the size to 2, enabling the flag, and
raising the score to 70. -/
theorem feasibilityScore_monotone_witness :
    (feasibilityScore
        { vram_mb := 2508.75, parameters := "2.6B", low_resource_compatible := false,
          context_window := 4096, quantization := "q4f32_1",
          sentiment_f1_score := some 62.62, instruction_following := none,
          file_size_gb := 2.51 } ≤
      feasibilityScore
        { vram_mb := 2508.75, parameters := "2.6B", low_resource_compatible := false,
          context_window := 4096, quantization := "q4f32_1",
          sentiment_f1_score := some 62.62, instruction_following := none,
          file_size_gb := 2 }) ∧
    (feasibilityScore
        { vram_mb := 2508.75, parameters := "2.6B", low_resource_compatible := false,
          context_window := 4096, quantization := "q4f32_1",
          sentiment_f1_score := some 62.62, instruction_following := none,
          file_size_gb := 2.51 } ≤
      feasibilityScore
        { vram_mb := 2508.75, parameters := "2.6B", low_resource_compatible := true,
          context_window := 4096, quantization := "q4f32_1",
          sentiment_f1_score := some 62.62, instruction_following := none,
          file_size_gb := 2.51 }) ∧
    (feasibilityScore
        { vram_mb := 2508.75, parameters := "2.6B", low_resource_compatible := false,
          context_window := 4096, quantization := "q4f32_1",
          sentiment_f1_score := some 62.62, instruction_following := none,
          file_size_gb := 2.51 } ≤
      feasibilityScore
        { vram_mb := 2508.75, parameters := "2.6B", low_resource_compatible := false,
          context_window := 4096, quantization := "q4f32_1",
          sentiment_f1_score := some 70, instruction_following := none,
          file_size_gb := 2.51 }) := by
  obtain ⟨h1, h2, h3⟩ :=
    feasibilityScore_monotone
      { vram_mb := 2508.75, parameters := "2.6B", low_resource_compatible := false,
        context_window := 4096, quantization := "q4f32_1",
        sentiment_f1_score := some 62.62, instruction_following := none,
        file_size_gb := 2.51 } 2 62.62 70
  exact ⟨h1 (by norm_num), h2 rfl, h3 rfl (by norm_num)⟩

/-- Python `max(pairs, key=lambda x: x[1])`: a left fold in which a later
element replaces the running maximum only when its value is strictly
greater, so the first maximal element wins; an empty sequence raises
`ValueError`, embedded as `none`. -/
def pyMaxBySnd (l : List (String × ℚ)) : Option (String × ℚ) :=
  match l with
  | [] => none
  | p :: ps => some (ps.foldl (fun acc q => if acc.2 < q.2 then q else acc) p)

/-- Python `min(pairs, key=lambda x: x[1])`: a later element replaces the
running minimum only when strictly smaller; empty input is `none`. -/
def pyMinBySnd (l : List (String × ℚ)) : Option (String × ℚ) :=
  match l with
  | [] => none
  | p :: ps => some (ps.foldl (fun acc q => if q.2 < acc.2 then q else acc) p)

/-- The filtered (name, score) list built inside
`generate_analysis_summary`: the comprehension
`[(name, data["sentiment_f1_score"]) for ... if data["sentiment_f1_score"]]`,
whose guard is Python truthiness. -/
def sentimentPairs (cat : Catalog) : List (String × ℚ) :=
  cat.filterMap (fun p =>
    if pyTruthy p.2.sentiment_f1_score then some (p.1, p.2.sentiment_f1_score.getD 0)
    else none)

/-- `findings["models_with_sentiment_data"]`: length of the
truthiness-filtered record list. -/
def modelsWithSentimentData (cat : Catalog) : ℕ :=
  (cat.filter (fun p => pyTruthy p.2.sentiment_f1_score)).length

/-- `findings["models_under_4gb"]`. -/
def modelsUnder4gb (cat : Catalog) : ℕ :=
  (cat.filter (fun p => p.2.file_size_gb < 4)).length

/-- `findings["low_resource_compatible"]`. -/
def lowResourceCount (cat : Catalog) : ℕ :=
  (cat.filter (fun p => p.2.low_resource_compatible)).length

/-- `findings["best_sentiment_model"]`: Python `max` over the sentiment
pair list. -/
def bestSentimentModel (cat : Catalog) : Option (String × ℚ) :=
  pyMaxBySnd (sentimentPairs cat)

/-- `findings["smallest_model"]`: Python `min` over all (name, file size)
pairs. -/
def smallestModel (cat : Catalog) : Option (String × ℚ) :=
  pyMinBySnd (cat.map (fun p => (p.1, p.2.file_size_gb)))

/-- The "Sentiment F1" cell of a comparison-matrix row:
`data["sentiment_f1_score"] if data["sentiment_f1_score"] else "N/A"`;
`none` embeds the string "N/A". -/
def sentimentF1Cell (s : Option ℚ) : Option ℚ :=
  if pyTruthy s then s else none

/-- The (name, score) pairs of records whose sentiment score is present,
with no truthiness guard: the filter the specification describes. -/
def presentSentimentPairs (cat : Catalog) : List (String × ℚ) :=
  cat.filterMap (fun p => p.2.sentiment_f1_score.map (fun x => (p.1, x)))

/-- The category loop of `create_deployment_feasibility_chart`: each
base name of each record (the part of its name before "-Instruct") is appended
to the bucket its score falls in, in catalog order.  The four components
are the Excellent / Good / Adequate / Not Suitable lists. -/
def categorizeModels (cat : Catalog) : List String × List String × List String × List String :=
  cat.foldl
    (fun acc p =>
      let score := feasibilityScore p.2
      let base := (p.1.splitOn "-Instruct").headD p.1
      if score ≥ 7 then (acc.1 ++ [base], acc.2.1, acc.2.2.1, acc.2.2.2)
      else if score ≥ 5 then (acc.1, acc.2.1 ++ [base], acc.2.2.1, acc.2.2.2)
      else if score ≥ 3 then (acc.1, acc.2.1, acc.2.2.1 ++ [base], acc.2.2.2)
      else (acc.1, acc.2.1, acc.2.2.1, acc.2.2.2 ++ [base]))
    ([], [], [], [])

lemma foldlMax_mem (l : List (String × ℚ)) (a : String × ℚ) :
    l.foldl (fun acc q => if acc.2 < q.2 then q else acc) a ∈ a :: l := by
  induction l generalizing a with
  | nil => simp
  | cons q l ih =>
    simp only [List.foldl_cons]
    rcases List.mem_cons.mp (ih (if a.2 < q.2 then q else a)) with h1 | h1
    · rw [h1]
      split_ifs <;> simp
    · simp [List.mem_cons, h1]

lemma foldlMax_le (l : List (String × ℚ)) (a : String × ℚ) :
    a.2 ≤ (l.foldl (fun acc q => if acc.2 < q.2 then q else acc) a).2 ∧
      ∀ q ∈ l, q.2 ≤ (l.foldl (fun acc q => if acc.2 < q.2 then q else acc) a).2 := by
  induction l generalizing a with
  | nil => simp
  | cons q l ih =>
    simp only [List.foldl_cons]
    obtain ⟨h1, h2⟩ := ih (if a.2 < q.2 then q else a)
    constructor
    · refine le_trans ?_ h1
      split_ifs with h
      · exact le_of_lt h
      · exact le_refl _
    · intro p hp
      rcases List.mem_cons.mp hp with rfl | hp
      · refine le_trans ?_ h1
        split_ifs with h
        · exact le_refl _
        · exact le_of_not_lt h
      · exact h2 p hp

lemma foldlMin_mem (l : List (String × ℚ)) (a : String × ℚ) :
    l.foldl (fun acc q => if q.2 < acc.2 then q else acc) a ∈ a :: l := by
  induction l generalizing a with
  | nil => simp
  | cons q l ih =>
    simp only [List.foldl_cons]
    rcases List.mem_cons.mp (ih (if q.2 < a.2 then q else a)) with h1 | h1
    · rw [h1]
      split_ifs <;> simp
    · simp [List.mem_cons, h1]

lemma foldlMin_le (l : List (String × ℚ)) (a : String × ℚ) :
    (l.foldl (fun acc q => if q.2 < acc.2 then q else acc) a).2 ≤ a.2 ∧
      ∀ q ∈ l, (l.foldl (fun acc q => if q.2 < acc.2 then q else acc) a).2 ≤ q.2 := by
  induction l generalizing a with
  | nil => simp
  | cons q l ih =>
    simp only [List.foldl_cons]
    obtain ⟨h1, h2⟩ := ih (if q.2 < a.2 then q else a)
    constructor
    · refine le_trans h1 ?_
      split_ifs with h
      · exact le_of_lt h
      · exact le_refl _
    · intro p hp
      rcases List.mem_cons.mp hp with rfl | hp
      · refine le_trans h1 ?_
        split_ifs with h
        · exact le_refl _
        · exact le_of_not_lt h
      · exact h2 p hp

/-- The embedded `webllm_models` catalog of `create_webllm_compatibility_data`,
in dict insertion order, with every literal field. -/
def webllmModels : Catalog :=
  [("Llama-3.2-1B-Instruct-q4f16_1",
    { vram_mb := 879.04, parameters := "1.23B", low_resource_compatible := true,
      context_window := 4096, quantization := "q4f16_1", sentiment_f1_score := none,
      instruction_following := some 59.5, file_size_gb := 0.88 }),
   ("Llama-3.2-1B-Instruct-q4f32_1",
    { vram_mb := 1128.82, parameters := "1.23B", low_resource_compatible := true,
      context_window := 4096, quantization := "q4f32_1", sentiment_f1_score := none,
      instruction_following := some 59.5, file_size_gb := 1.13 }),
   ("Llama-3.2-3B-Instruct-q4f16_1",
    { vram_mb := 2263.69, parameters := "3.21B", low_resource_compatible := true,
      context_window := 4096, quantization := "q4f16_1", sentiment_f1_score := none,
      instruction_following := some 59.5, file_size_gb := 2.26 }),
   ("SmolLM2-135M-Instruct-q0f32",
    { vram_mb := 719.38, parameters := "135M", low_resource_compatible := true,
      context_window := 4096, quantization := "q0f32", sentiment_f1_score := none,
      instruction_following := none, file_size_gb := 0.72 }),
   ("SmolLM2-360M-Instruct-q4f32_1",
    { vram_mb := 579.61, parameters := "360M", low_resource_compatible := true,
      context_window := 4096, quantization := "q4f32_1", sentiment_f1_score := none,
      instruction_following := none, file_size_gb := 0.58 }),
   ("SmolLM2-1.7B-Instruct-q4f32_1",
    { vram_mb := 2692.38, parameters := "1.7B", low_resource_compatible := true,
      context_window := 4096, quantization := "q4f32_1", sentiment_f1_score := none,
      instruction_following := none, file_size_gb := 2.69 }),
   ("Phi-3.5-mini-instruct-q4f16_1",
    { vram_mb := 3672.07, parameters := "3.8B", low_resource_compatible := false,
      context_window := 4096, quantization := "q4f16_1", sentiment_f1_score := none,
      instruction_following := some 61.4, file_size_gb := 3.67 }),
   ("Phi-3.5-mini-instruct-q4f16_1-1k",
    { vram_mb := 2520.07, parameters := "3.8B", low_resource_compatible := true,
      context_window := 1024, quantization := "q4f16_1", sentiment_f1_score := none,
      instruction_following := some 61.4, file_size_gb := 2.52 }),
   ("Qwen2.5-0.5B-Instruct-q4f32_1",
    { vram_mb := 1060.20, parameters := "0.5B", low_resource_compatible := true,
      context_window := 4096, quantization := "q4f32_1", sentiment_f1_score := none,
      instruction_following := none, file_size_gb := 1.06 }),
   ("Qwen2.5-1.5B-Instruct-q4f32_1",
    { vram_mb := 1888.97, parameters := "1.5B", low_resource_compatible := true,
      context_window := 4096, quantization := "q4f32_1", sentiment_f1_score := some 58.29,
      instruction_following := none, file_size_gb := 1.89 }),
   ("Qwen2.5-3B-Instruct-q4f32_1",
    { vram_mb := 2893.64, parameters := "3B", low_resource_compatible := true,
      context_window := 4096, quantization := "q4f32_1", sentiment_f1_score := none,
      instruction_following := none, file_size_gb := 2.89 }),
   ("gemma-2-2b-it-q4f32_1",
    { vram_mb := 2508.75, parameters := "2.6B", low_resource_compatible := false,
      context_window := 4096, quantization := "q4f32_1", sentiment_f1_score := some 62.62,
      instruction_following := none, file_size_gb := 2.51 }),
   ("gemma-2-2b-it-q4f32_1-1k",
    { vram_mb := 1884.75, parameters := "2.6B", low_resource_compatible := true,
      context_window := 1024, quantization := "q4f32_1", sentiment_f1_score := some 62.62,
      instruction_following := none, file_size_gb := 1.88 }),
   ("TinyLlama-1.1B-Chat-v1.0-q4f32_1",
    { vram_mb := 839.98, parameters := "1.1B", low_resource_compatible := true,
      context_window := 2048, quantization := "q4f32_1", sentiment_f1_score := some 45.18,
      instruction_following := none, file_size_gb := 0.84 })]

/-- A record carrying a present sentiment score of exactly 0.0 — a legal
value of the data model (`[0, 100]`). -/
def zeroRecord : ModelRecord :=
  { vram_mb := 1000, parameters := "1B", low_resource_compatible := true,
    context_window := 4096, quantization := "q4f32_1", sentiment_f1_score := some 0,
    instruction_following := none, file_size_gb := 1 }

/-- A one-record catalog whose only sentiment score is present but 0.0. -/
def zeroScoreCatalog : Catalog := [("zero-f1-model", zeroRecord)]

/-- A catalog in which no record carries a sentiment score at all (its one
record is the first record of the embedded catalog, whose score is `None`). -/
def noF1Catalog : Catalog :=
  [("Llama-3.2-1B-Instruct-q4f16_1",
    { vram_mb := 879.04, parameters := "1.23B", low_resource_compatible := true,
      context_window := 4096, quantization := "q4f16_1", sentiment_f1_score := none,
      instruction_following := some 59.5, file_size_gb := 0.88 })]

lemma sentimentPairs_length (cat : Catalog) :
    (sentimentPairs cat).length = modelsWithSentimentData cat := by
  unfold sentimentPairs modelsWithSentimentData
  induction cat with
  | nil => rfl
  | cons p cat ih =>
    by_cases hp : pyTruthy p.2.sentiment_f1_score
    · simp [List.filterMap_cons, List.filter_cons, hp, ih]
    · simp [List.filterMap_cons, List.filter_cons, hp, ih]

lemma foldlMax_first (l : List (String × ℚ)) (a : String × ℚ) :
    ∃ l1 l2,
      a :: l = l1 ++ (l.foldl (fun acc q => if acc.2 < q.2 then q else acc) a) :: l2 ∧
      (∀ q ∈ l1, q.2 < (l.foldl (fun acc q => if acc.2 < q.2 then q else acc) a).2) ∧
      (∀ q ∈ l2, q.2 ≤ (l.foldl (fun acc q => if acc.2 < q.2 then q else acc) a).2) := by
  induction l generalizing a with
  | nil => exact ⟨[], [], rfl, by simp, by simp⟩
  | cons q l ih =>
    simp only [List.foldl_cons]
    by_cases h : a.2 < q.2
    · rw [if_pos h]
      obtain ⟨l1, l2, heq, hlt, hle⟩ := ih q
      refine ⟨a :: l1, l2, ?_, ?_, hle⟩
      · rw [List.cons_append, ← heq]
      · intro x hx
        rcases List.mem_cons.mp hx with rfl | hx
        · exact lt_of_lt_of_le h (foldlMax_le l q).1
        · exact hlt x hx
    · rw [if_neg h]
      obtain ⟨l1, l2, heq, hlt, hle⟩ := ih a
      rcases l1 with _ | ⟨x, t⟩
      · simp only [List.nil_append] at heq
        injection heq with h1 h2
        refine ⟨[], q :: l, ?_, by simp, ?_⟩
        · simp only [List.nil_append]
          rw [← h1]
        · intro x hx
          rcases List.mem_cons.mp hx with rfl | hx
          · rw [← h1]
            exact le_of_not_lt h
          · exact hle x (h2 ▸ hx)
      · rw [List.cons_append] at heq
        injection heq with h1 h2
        refine ⟨a :: q :: t, l2, ?_, ?_, hle⟩
        · rw [List.cons_append, List.cons_append, ← h2]
        · intro z hz
          have haF : a.2 < (List.foldl (fun acc q => if acc.2 < q.2 then q else acc) a l).2 := by
            have hx2 := hlt x (List.mem_cons_self ..)
            rw [← h1] at hx2
            exact hx2
          rcases List.mem_cons.mp hz with rfl | hz
          · exact haF
          · rcases List.mem_cons.mp hz with rfl | hz
            · exact lt_of_le_of_lt (le_of_not_lt h) haF
            · exact hlt z (List.mem_cons_of_mem x hz)

/-- C1: on a catalog in which no record carries a sentiment score, the
sentiment pair list of the summary is empty and `best_sentiment_model` is the
result of Python `max` on an empty sequence — an uncaught `ValueError`
(embedded as `none`); no configuration/data error with the message
"no model has the required benchmark field" exists anywhere in the code. -/
theorem best_sentiment_empty_catalog_crashes :
    sentimentPairs noF1Catalog = [] ∧ bestSentimentModel noF1Catalog = none :=
  of_decide_eq_true (by with_unfolding_all rfl)

/-- Counterexample to C6 as stated: in a catalog whose single record has a
present `sentiment_f1_score` of 0.0, the present-valued pair list is
nonempty, yet the truthiness filter in the code drops the record: the
sentiment-data count is 0 (the claim says 1) and `best_sentiment_model`
is Python `max` of an empty sequence (an uncaught `ValueError`, embedded
`none`) instead of the scanned pair. -/
theorem summary_present_zero_counterexample :
    presentSentimentPairs zeroScoreCatalog = [("zero-f1-model", 0)] ∧
    bestSentimentModel zeroScoreCatalog = none ∧
    modelsWithSentimentData zeroScoreCatalog = 0 :=
  of_decide_eq_true (by with_unfolding_all rfl)

/-- C6 (amended): for every catalog with at least one record whose
`sentiment_f1_score` is present and nonzero (truthy), the best-sentiment
entry is a pair of the truthy-filtered scan list achieving its maximum
value; the summary counts are the number of truthy-sentiment records, of
records with `file_size_gb < 4.0`, and of `low_resource_compatible`
records; and the smallest-model entry is a (name, file size) pair of the
catalog achieving the minimum file size. -/
theorem summary_reductions (cat : Catalog)
    (h : ∃ p ∈ cat, pyTruthy p.2.sentiment_f1_score = true) :
    (∃ b, bestSentimentModel cat = some b ∧ b ∈ sentimentPairs cat ∧
        ∀ q ∈ sentimentPairs cat, q.2 ≤ b.2) ∧
    modelsWithSentimentData cat = (sentimentPairs cat).length ∧
    modelsUnder4gb cat = cat.countP (fun p => p.2.file_size_gb < 4) ∧
    lowResourceCount cat = cat.countP (fun p => p.2.low_resource_compatible) ∧
    (∃ s, smallestModel cat = some s ∧ s ∈ cat.map (fun p => (p.1, p.2.file_size_gb)) ∧
        ∀ q ∈ cat.map (fun p => (p.1, p.2.file_size_gb)), s.2 ≤ q.2) := by
  obtain ⟨p0, hp0, ht0⟩ := h
  have hmem : (p0.1, p0.2.sentiment_f1_score.getD 0) ∈ sentimentPairs cat := by
    unfold sentimentPairs
    refine List.mem_filterMap.mpr ⟨p0, hp0, ?_⟩
    simp [ht0]
  refine ⟨?_, (sentimentPairs_length cat).symm,
    (List.countP_eq_length_filter ..).symm, (List.countP_eq_length_filter ..).symm, ?_⟩
  · rcases hpairs : sentimentPairs cat with _ | ⟨q, qs⟩
    · rw [hpairs] at hmem
      cases hmem
    · refine ⟨qs.foldl (fun acc x => if acc.2 < x.2 then x else acc) q, ?_, ?_, ?_⟩
      · unfold bestSentimentModel pyMaxBySnd
        rw [hpairs]
      · exact foldlMax_mem qs q
      · intro x hx
        rcases List.mem_cons.mp hx with rfl | hx
        · exact (foldlMax_le qs x).1
        · exact (foldlMax_le qs q).2 x hx
  · rcases hl : cat.map (fun p => (p.1, p.2.file_size_gb)) with _ | ⟨q, qs⟩
    · rw [List.map_eq_nil_iff] at hl
      rw [hl] at hp0
      cases hp0
    · refine ⟨qs.foldl (fun acc x => if x.2 < acc.2 then x else acc) q, ?_, ?_, ?_⟩
      · unfold smallestModel pyMinBySnd
        rw [hl]
      · rw [hl]
        exact foldlMin_mem qs q
      · intro x hx
        rw [hl] at hx
        rcases List.mem_cons.mp hx with rfl | hx
        · exact (foldlMin_le qs x).1
        · exact (foldlMin_le qs q).2 x hx

/-- Witness for C6 (amended): the reductions theorem applied to the
embedded catalog, giving the sentiment-data count as the scan length. -/
theorem summary_reductions_witness :
    modelsWithSentimentData webllmModels = (sentimentPairs webllmModels).length :=
  (summary_reductions webllmModels (of_decide_eq_true (by with_unfolding_all rfl))).2.1

/-- C9: when the running Python `max` meets an equal value it keeps the
current (earlier) element, so the best-sentiment entry is the earliest
pair achieving the maximal truthy score: the scan list splits as
`l1 ++ b :: l2` with everything before `b` strictly smaller and
everything after at most `b`.  On the embedded catalog, where both gemma
records score 62.62, the winner is `gemma-2-2b-it-q4f32_1`. -/
theorem best_sentiment_earliest_tie (cat : Catalog) (b : String × ℚ) :
    (bestSentimentModel cat = some b →
      ∃ l1 l2, sentimentPairs cat = l1 ++ b :: l2 ∧
        (∀ q ∈ l1, q.2 < b.2) ∧ (∀ q ∈ l2, q.2 ≤ b.2)) ∧
    bestSentimentModel webllmModels = some ("gemma-2-2b-it-q4f32_1", 62.62) := by
  constructor
  · intro hb
    unfold bestSentimentModel pyMaxBySnd at hb
    rcases hpairs : sentimentPairs cat with _ | ⟨q, qs⟩
    · rw [hpairs] at hb
      cases hb
    · rw [hpairs] at hb
      injection hb with hb'
      obtain ⟨l1, l2, heq, hlt, hle⟩ := foldlMax_first qs q
      rw [hb'] at heq hlt hle
      exact ⟨l1, l2, heq, hlt, hle⟩
  · with_unfolding_all rfl

/-- Witness for C9: the earliest-tie theorem applied to the embedded
catalog at its computed best pair. -/
theorem best_sentiment_earliest_tie_witness :
    ∃ l1 l2, sentimentPairs webllmModels =
        l1 ++ ("gemma-2-2b-it-q4f32_1", (62.62 : ℚ)) :: l2 ∧
      (∀ q ∈ l1, q.2 < (62.62 : ℚ)) ∧ (∀ q ∈ l2, q.2 ≤ (62.62 : ℚ)) :=
  (best_sentiment_earliest_tie webllmModels ("gemma-2-2b-it-q4f32_1", 62.62)).1
    (by with_unfolding_all rfl)

/-- C8: a present sentiment score of exactly 0.0 is indistinguishable
from an absent one: the sentiment addend of the scorer is +0 either way,
the sentiment-data count of the summary ignores the record either way, and the
comparison-matrix "Sentiment F1" cell is "N/A" either way — Python
truthiness conflates `0.0` with `None`. -/
theorem zero_score_behaves_as_absent (n : String) (r : ModelRecord) (cat : Catalog)
    (h : r.sentiment_f1_score = some 0) :
    feasibilityScore r = feasibilityScore { r with sentiment_f1_score := none } ∧
    modelsWithSentimentData ((n, r) :: cat) =
      modelsWithSentimentData ((n, { r with sentiment_f1_score := none }) :: cat) ∧
    sentimentF1Cell r.sentiment_f1_score = sentimentF1Cell none := by
  have ht : pyTruthy r.sentiment_f1_score = false := by
    rw [h]
    simp [pyTruthy]
  refine ⟨?_, ?_, ?_⟩
  · unfold feasibilityScore
    have h0 : sentimentPoints r.sentiment_f1_score = 0 := by
      rw [sentimentPoints_eq, h]
      norm_num
    have h1 : sentimentPoints none = 0 := by
      rw [sentimentPoints_eq]
    dsimp only
    rw [h0, h1]
  · have ht2 : pyTruthy ({ r with sentiment_f1_score := none } : ModelRecord).sentiment_f1_score = false := rfl
    unfold modelsWithSentimentData
    simp [List.filter_cons, ht, ht2]
  · rw [h]
    simp [sentimentF1Cell, pyTruthy]

/-- Witness for C8: the zero-score record of the counterexample catalog. -/
theorem zero_score_behaves_as_absent_witness :
    feasibilityScore zeroRecord =
      feasibilityScore { zeroRecord with sentiment_f1_score := none } ∧
    modelsWithSentimentData [("zero-f1-model", zeroRecord)] =
      modelsWithSentimentData
        [("zero-f1-model", { zeroRecord with sentiment_f1_score := none })] ∧
    sentimentF1Cell zeroRecord.sentiment_f1_score = sentimentF1Cell none :=
  zero_score_behaves_as_absent "zero-f1-model" zeroRecord [] rfl

/-- C10: every record of the embedded catalog scores at least 3, so the
"Not Suitable" bucket of the categorisation loop is empty on every run. -/
theorem embedded_catalog_never_not_suitable :
    webllmModels.all (fun p => 3 ≤ feasibilityScore p.2) = true ∧
    (categorizeModels webllmModels).2.2.2 = [] :=
  of_decide_eq_true (by with_unfolding_all rfl)
